import Mathlib

/-! Iridescence renderer (`script.js`)

A shallow embedding of the plain-WebGL iridescence script.

* JavaScript numbers are modelled as exact rationals (`ℚ`); `NaN` and the
  infinities are outside the model.
* The graphics context, the DOM and the animation scheduler are the host.  What
  the script does to them is recorded as a chronological list of `Call`s
  (`State.trace`); next to it the state keeps the values the script last wrote
  (canvas size, uniforms, pointer object).
* `State.frames` is ghost state: the uniform store as it stands at each
  `gl.drawArrays`.
* The DOM work before `getContext` (creating and styling the canvas) and the
  page housekeeping at the very end of the script (`#year`, `#demoToggle`) make
  no graphics call and are left out of the trace.
* The fragment shader's `main` is embedded separately, generic in the number
  type and in the two trigonometric functions it calls; it has no value where
  it divides by zero.
-/

namespace Iridescence

/-! ## Configuration constants -/

/-- Source: `const COLOR = [1.0, 1.0, 1.0]`. -/
def COLOR : ℚ × ℚ × ℚ := (1, 1, 1)

/-- Source: `const AMPLITUDE = 0.1`. -/
def AMPLITUDE : ℚ := 0.1

/-- Source: `const SPEED = 1.0`. -/
def SPEED : ℚ := 1

/-- Source: `const MOUSE_REACT = true`.  The comment above the constants
describes the configuration as `mouseReact={false}`; the constant, which is what
the script tests, is `true`. -/
def MOUSE_REACT : Bool := true

/-! ## Host calls -/

/-- The two shader stages. -/
inductive Stage
  | vertex
  | fragment
deriving DecidableEq, Repr

/-- The three messages the script passes to `console.error`. -/
inductive Diag
  | webglNotSupported
  | shaderCompileError (st : Stage)
  | programLinkError
deriving DecidableEq, Repr

/-- The two vertex attributes (and their buffers). -/
inductive Attr
  | a_position
  | a_uv
deriving DecidableEq, Repr

/-- The six uniforms of the fragment shader. -/
inductive UName
  | uTime
  | uColor
  | uResolution
  | uMouse
  | uAmplitude
  | uSpeed
deriving DecidableEq, Repr

/-- The two DOM events the script listens to on the canvas. -/
inductive EvName
  | mousemove
  | touchmove
deriving DecidableEq, Repr

/-- Primitive mode of a draw call; the script only uses `gl.TRIANGLES`. -/
inductive Mode
  | triangles
deriving DecidableEq, Repr

/-- Calls the script makes on its host, with the arguments that matter. -/
inductive Call
  | consoleError (d : Diag)
  | createShader (st : Stage)
  | shaderSource (st : Stage)
  | compileShader (st : Stage)
  | deleteShader (st : Stage)
  | createProgram
  | attachShader (sh : Option Stage)
  | linkProgram
  | useProgram
  | bindBuffer (a : Attr)
  | bufferData (a : Attr) (data : List ℚ)
  | enableVertexAttribArray (a : Attr)
  | vertexAttribPointer (a : Attr) (size : ℕ)
  | uniform1f (u : UName) (v : ℚ)
  | uniform2f (u : UName) (x y : ℚ)
  | uniform3f (u : UName) (x y z : ℚ)
  | setCanvasWidth (v : ℤ)
  | setCanvasHeight (v : ℤ)
  | setStyleWidth (px : ℚ)
  | setStyleHeight (px : ℚ)
  | viewport (x y w h : ℤ)
  | drawArrays (mode : Mode) (first count : ℕ)
  | requestAnimationFrame
  | addEventListener (ev : EvName)
  | canvasRemove
  | loseContext
deriving DecidableEq, Repr

/-! ## State -/

/-- The values the script last passed to `gl.uniform*` for each uniform.
`uTime` and `uResolution` are not written during setup, so they start as
`none`. -/
structure Uniforms where
  uTime : Option ℚ
  uColor : ℚ × ℚ × ℚ
  uResolution : Option (ℤ × ℤ)
  uMouse : ℚ × ℚ
  uAmplitude : ℚ
  uSpeed : ℚ
deriving DecidableEq, Repr

/-- State of a renderer whose setup ran to the end. -/
structure State where
  /-- Value of `canvas.width` (drawing-buffer width). -/
  canvasWidth : ℤ
  /-- Value of `canvas.height` (drawing-buffer height). -/
  canvasHeight : ℤ
  /-- Value of `canvas.style.width` in px; `none` while it is still `'100%'`. -/
  styleWidth : Option ℚ
  /-- Value of `canvas.style.height` in px; `none` while it is still `'100%'`. -/
  styleHeight : Option ℚ
  /-- Last arguments of `gl.viewport`, if it was ever called. -/
  viewport : Option (ℤ × ℤ × ℤ × ℤ)
  /-- The uniform store. -/
  uniforms : Uniforms
  /-- The script's `mouse` object. -/
  mouse : ℚ × ℚ
  /-- The script's `start` (`performance.now()` at setup). -/
  start : ℚ
  /-- Whether the canvas is still in the document. -/
  attached : Bool
  /-- Whether `loseContext()` was called on the context. -/
  contextLost : Bool
  /-- Number of `render` callbacks waiting in the animation scheduler. -/
  pending : ℕ
  /-- Every host call so far, oldest first. -/
  trace : List Call
  /-- Ghost: the uniform store at each `gl.drawArrays`, oldest first. -/
  frames : List Uniforms
deriving DecidableEq, Repr

/-- What the host answers during setup. -/
structure Host where
  /-- `canvas.getContext('webgl', ...)` returns a context. -/
  glAvailable : Bool
  /-- `COMPILE_STATUS` of the vertex stage. -/
  vertexCompiles : Bool
  /-- `COMPILE_STATUS` of the fragment stage. -/
  fragmentCompiles : Bool
  /-- `LINK_STATUS` of the program. -/
  linkStatus : Bool
  /-- Whether the binding rejects a `null` shader in `gl.attachShader` with a
  `TypeError` (non-nullable parameter) instead of recording a GL error. -/
  attachNullThrows : Bool
  /-- What `performance.now()` returns when setup reads it. -/
  performanceNow : ℚ
deriving DecidableEq, Repr

/-- The container's layout as `resizeCanvasToDisplaySize` reads it. -/
structure Layout where
  /-- `container.getBoundingClientRect().width`. -/
  rectWidth : ℚ
  /-- `container.getBoundingClientRect().height`. -/
  rectHeight : ℚ
  /-- `window.devicePixelRatio`. -/
  devicePixelRatio : ℚ
deriving DecidableEq, Repr

/-- The canvas bounding box as `setMouseFromEvent` reads it. -/
structure Rect where
  left : ℚ
  top : ℚ
  width : ℚ
  height : ℚ
deriving DecidableEq, Repr

/-- A mouse event or a touch point: only its client coordinates are read. -/
structure Point where
  clientX : ℚ
  clientY : ℚ
deriving DecidableEq, Repr

/-- How the setup part of the script ends. -/
inductive Outcome
  /-- No context: the script logged and returned early. -/
  | unsupported (log : List Call)
  /-- An uncaught `TypeError` from `gl.attachShader(program, null)` ended the
  script. -/
  | threw (log : List Call)
  /-- The script ran to its end; the renderer is live. -/
  | started (s : State)
deriving DecidableEq, Repr

/-- Events the host delivers after setup. -/
inductive Event
  /-- The animation scheduler runs one waiting callback with timestamp `now`;
  `L` is the container layout at that moment. -/
  | frame (now : ℚ) (L : Layout)
  /-- A `mousemove` over the canvas. -/
  | mousemove (rect : Rect) (e : Point)
  /-- A `touchmove` over the canvas with its list of touches. -/
  | touchmove (rect : Rect) (touches : List Point)
  /-- Console call `window.__Iridescence.setColor(r, g, b)`. -/
  | setColor (r g b : ℚ)
  /-- Console call `window.__Iridescence.setAmplitude(v)`. -/
  | setAmplitude (v : ℚ)
  /-- Console call `window.__Iridescence.setSpeed(v)`. -/
  | setSpeed (v : ℚ)
  /-- Console call `dispose()`; `ext` says whether the host offers
  `WEBGL_lose_context`. -/
  | dispose (ext : Bool)
deriving DecidableEq, Repr

/-! ## Setup -/

/-- Source: `compileShader(src, type)`.  Returns the calls made and the shader,
`none` standing for `null`. -/
def compileShader (ok : Bool) (st : Stage) : List Call × Option Stage :=
  let calls := [Call.createShader st, Call.shaderSource st, Call.compileShader st]
  if ok then (calls, some st)
  else (calls ++ [Call.consoleError (Diag.shaderCompileError st), Call.deleteShader st], none)

/-- Source: `positions`, the quad as two triangles. -/
def positions : List ℚ := [-1, -1, 1, -1, -1, 1, -1, 1, 1, -1, 1, 1]

/-- Source: `uvs`, the matching texture coordinates. -/
def uvs : List ℚ := [0, 0, 1, 0, 0, 1, 0, 1, 1, 0, 1, 1]

/-- Calls of the `// position buffer` and `// uv buffer` blocks. -/
def bindAttributes : List Call :=
  [Call.bindBuffer Attr.a_position, Call.bufferData Attr.a_position positions,
   Call.enableVertexAttribArray Attr.a_position, Call.vertexAttribPointer Attr.a_position 2,
   Call.bindBuffer Attr.a_uv, Call.bufferData Attr.a_uv uvs,
   Call.enableVertexAttribArray Attr.a_uv, Call.vertexAttribPointer Attr.a_uv 2]

/-- Calls of the `// set static uniforms` block. -/
def staticUniforms : List Call :=
  [Call.uniform3f UName.uColor COLOR.1 COLOR.2.1 COLOR.2.2,
   Call.uniform1f UName.uAmplitude AMPLITUDE,
   Call.uniform1f UName.uSpeed SPEED,
   Call.uniform2f UName.uMouse 0.5 0.5]

/-- Calls of the `if (MOUSE_REACT) { ... }` block. -/
def listeners : List Call :=
  if MOUSE_REACT then
    [Call.addEventListener EvName.mousemove, Call.addEventListener EvName.touchmove]
  else []

/-- The script from `getContext` to `requestAnimationFrame(render)`.  A new
canvas has the default drawing buffer of 300 x 150. -/
def setup (h : Host) : Outcome :=
  if h.glAvailable = false then
    Outcome.unsupported [Call.consoleError Diag.webglNotSupported]
  else
    let v := compileShader h.vertexCompiles Stage.vertex
    let f := compileShader h.fragmentCompiles Stage.fragment
    let t1 := v.1 ++ f.1 ++ [Call.createProgram, Call.attachShader v.2]
    if h.attachNullThrows = true ∧ v.2 = none then Outcome.threw t1
    else
      let t2 := t1 ++ [Call.attachShader f.2]
      if h.attachNullThrows = true ∧ f.2 = none then Outcome.threw t2
      else
        let t3 := t2 ++ [Call.linkProgram]
          ++ (if h.linkStatus then [] else [Call.consoleError Diag.programLinkError])
          ++ [Call.useProgram]
          ++ bindAttributes ++ staticUniforms ++ listeners
          ++ [Call.requestAnimationFrame]
        Outcome.started
          { canvasWidth := 300
            canvasHeight := 150
            styleWidth := none
            styleHeight := none
            viewport := none
            uniforms :=
              { uTime := none
                uColor := COLOR
                uResolution := none
                uMouse := (0.5, 0.5)
                uAmplitude := AMPLITUDE
                uSpeed := SPEED }
            mouse := (0.5, 0.5)
            start := h.performanceNow
            attached := true
            contextLost := false
            pending := 1
            trace := t3
            frames := [] }

/-! ## Operations of the live renderer -/

/-- Source: `resizeCanvasToDisplaySize()`. -/
def resizeCanvasToDisplaySize (L : Layout) (s : State) : State :=
  let dpr : ℚ := max 1 (if L.devicePixelRatio = 0 then 1 else L.devicePixelRatio)
  let width : ℤ := ⌊L.rectWidth * dpr⌋
  let height : ℤ := ⌊L.rectHeight * dpr⌋
  if s.canvasWidth ≠ width ∨ s.canvasHeight ≠ height then
    { s with
      canvasWidth := width
      canvasHeight := height
      styleWidth := some L.rectWidth
      styleHeight := some L.rectHeight
      viewport := some (0, 0, width, height)
      uniforms := { s.uniforms with uResolution := some (width, height) }
      trace := s.trace ++
        [Call.setCanvasWidth width, Call.setCanvasHeight height,
         Call.setStyleWidth L.rectWidth, Call.setStyleHeight L.rectHeight,
         Call.viewport 0 0 width height,
         Call.uniform2f UName.uResolution width height] }
  else s

/-- Source: `setMouseFromEvent(e)`. -/
def setMouseFromEvent (rect : Rect) (e : Point) (s : State) : State :=
  let x := (e.clientX - rect.left) / rect.width
  let y := 1 - (e.clientY - rect.top) / rect.height
  { s with
    mouse := (x, y)
    uniforms := { s.uniforms with uMouse := (x, y) }
    trace := s.trace ++ [Call.uniform2f UName.uMouse x y] }

/-- Source: the `touchmove` listener: only the first touch is used. -/
def onTouchMove (rect : Rect) (touches : List Point) (s : State) : State :=
  match touches with
  | [] => s
  | p :: _ => setMouseFromEvent rect p s

/-- Source: `render(now)`. -/
def render (now : ℚ) (L : Layout) (s : State) : State :=
  let s1 := resizeCanvasToDisplaySize L s
  let t := (now - s1.start) * 0.001
  let u := { s1.uniforms with uTime := some t }
  { s1 with
    uniforms := u
    trace := s1.trace ++
      [Call.uniform1f UName.uTime t, Call.drawArrays Mode.triangles 0 6,
       Call.requestAnimationFrame]
    frames := s1.frames ++ [u]
    pending := s1.pending + 1 }

/-- Source: `window.__Iridescence.setColor`. -/
def setColor (r g b : ℚ) (s : State) : State :=
  { s with
    uniforms := { s.uniforms with uColor := (r, g, b) }
    trace := s.trace ++ [Call.uniform3f UName.uColor r g b] }

/-- Source: `window.__Iridescence.setAmplitude`. -/
def setAmplitude (v : ℚ) (s : State) : State :=
  { s with
    uniforms := { s.uniforms with uAmplitude := v }
    trace := s.trace ++ [Call.uniform1f UName.uAmplitude v] }

/-- Source: `window.__Iridescence.setSpeed`. -/
def setSpeed (v : ℚ) (s : State) : State :=
  { s with
    uniforms := { s.uniforms with uSpeed := v }
    trace := s.trace ++ [Call.uniform1f UName.uSpeed v] }

/-- Source: `window.__Iridescence.dispose`. -/
def dispose (ext : Bool) (s : State) : State :=
  let s1 := { s with attached := false, trace := s.trace ++ [Call.canvasRemove] }
  if ext then { s1 with contextLost := true, trace := s1.trace ++ [Call.loseContext] }
  else s1

/-! ## The event loop -/

/-- One event.  A `frame` runs `render` only when a callback is waiting. -/
def step (s : State) : Event → State
  | Event.frame now L =>
    match s.pending with
    | 0 => s
    | n + 1 => render now L { s with pending := n }
  | Event.mousemove rect e => if MOUSE_REACT then setMouseFromEvent rect e s else s
  | Event.touchmove rect touches => if MOUSE_REACT then onTouchMove rect touches s else s
  | Event.setColor r g b => setColor r g b s
  | Event.setAmplitude v => setAmplitude v s
  | Event.setSpeed v => setSpeed v s
  | Event.dispose ext => dispose ext s

/-- A sequence of events, oldest first. -/
def run (s : State) (evs : List Event) : State :=
  evs.foldl step s

/-- Whether setup ran to its end. -/
def Outcome.isStarted : Outcome → Bool
  | Outcome.started _ => true
  | _ => false

/-- The renderer state after setup and the events, if setup ran to its end. -/
def sessionState (h : Host) (evs : List Event) : Option State :=
  match setup h with
  | Outcome.started s => some (run s evs)
  | _ => none

/-- Every host call of a whole session: setup, then the events.  Nothing is
registered with the host when setup does not reach its end, so events then add
nothing. -/
def session (h : Host) (evs : List Event) : List Call :=
  match setup h with
  | Outcome.unsupported log => log
  | Outcome.threw log => log
  | Outcome.started s => (run s evs).trace

/-- Frame events for a list of (timestamp, layout) pairs. -/
def frameEvents (ticks : List (ℚ × Layout)) : List Event :=
  ticks.map fun t => Event.frame t.1 t.2

/-! ## Observations on a trace -/

/-- Number of `console.error` calls. -/
def diagnostics (tr : List Call) : ℕ :=
  (tr.filter fun c => match c with
    | Call.consoleError _ => true
    | _ => false).length

/-- Number of `gl.drawArrays` calls. -/
def draws (tr : List Call) : ℕ :=
  (tr.filter fun c => match c with
    | Call.drawArrays _ _ _ => true
    | _ => false).length

/-- The values written to `uTime`, oldest first. -/
def timesWritten (tr : List Call) : List ℚ :=
  tr.filterMap fun c => match c with
    | Call.uniform1f UName.uTime v => some v
    | _ => none

/-- Timestamps of the `frame` events of a sequence, oldest first. -/
def frameTimes (evs : List Event) : List ℚ :=
  evs.filterMap fun e => match e with
    | Event.frame now _ => some now
    | _ => none

/-- Number of `requestAnimationFrame(render)` calls. -/
def rafCalls (tr : List Call) : ℕ :=
  (tr.filter fun c => match c with
    | Call.requestAnimationFrame => true
    | _ => false).length

/-- A host whose binding accepts a `null` shader in `gl.attachShader`, with the
given compile and link answers; the clock reads 0 at setup. -/
def lenientHost (vertexOk fragmentOk linkOk : Bool) : Host :=
  { glAvailable := true
    vertexCompiles := vertexOk
    fragmentCompiles := fragmentOk
    linkStatus := linkOk
    attachNullThrows := false
    performanceNow := 0 }

/-- A valid host: everything compiles and links. -/
def goodHost (now : ℚ) : Host :=
  { glAvailable := true
    vertexCompiles := true
    fragmentCompiles := true
    linkStatus := true
    attachNullThrows := true
    performanceNow := now }

/-! ## The fragment shader -/

/-- Inputs of one fragment: the six uniforms and the varying `vUv`. -/
structure Fragment (α : Type) where
  uTime : α
  uColor : α × α × α
  uResolution : α × α
  uMouse : α × α
  uAmplitude : α
  uSpeed : α
  vUv : α × α

/-- Body of the shader's `for` loop on the pair `(a, d)`:
`a += cos(i - d - a * uv.x); d += sin(uv.y * i + a);`. -/
def loopBody {α : Type} [LinearOrderedField α] (cos sin : α → α) (uv : α × α)
    (st : α × α) (i : ℕ) : α × α :=
  let a := st.1 + cos ((i : α) - st.2 - st.1 * uv.1)
  let d := st.2 + sin (uv.2 * (i : α) + a)
  (a, d)

/-- The fragment shader's `main`, returning `gl_FragColor` as `(r, g, b, alpha)`.
The loop counter runs over `0, 1, ..., 7`.  The shader divides by
`mr = min(uResolution.x, uResolution.y)` without a guard; over the reals the
quotient is undefined when `mr = 0`, and the result is then `none`. -/
def fragMain {α : Type} [LinearOrderedField α] (cos sin : α → α) (f : Fragment α) :
    Option (α × α × α × α) :=
  let mr := min f.uResolution.1 f.uResolution.2
  if mr = 0 then none
  else
    let uv0 : α × α :=
      ((f.vUv.1 * 2.0 - 1.0) * f.uResolution.1 / mr,
       (f.vUv.2 * 2.0 - 1.0) * f.uResolution.2 / mr)
    let uv : α × α :=
      (uv0.1 + (f.uMouse.1 - 0.5) * f.uAmplitude, uv0.2 + (f.uMouse.2 - 0.5) * f.uAmplitude)
    let d0 := -f.uTime * 0.5 * f.uSpeed
    let ad := (List.range 8).foldl (loopBody cos sin uv) (0.0, d0)
    let a := ad.1
    let d := ad.2 + f.uTime * 0.5 * f.uSpeed
    let col : α × α × α :=
      (cos (uv.1 * d) * 0.6 + 0.4, cos (a + d) * 0.5 + 0.5, cos (uv.2 * a) * 0.6 + 0.4)
    some
      (cos (col.1 * cos d * 0.5 + 0.5) * f.uColor.1,
       cos (col.2.1 * cos a * 0.5 + 0.5) * f.uColor.2.1,
       cos (col.2.2 * cos 2.5 * 0.5 + 0.5) * f.uColor.2.2,
       1.0)

/-! ## Lemmas on single operations -/

theorem resize_canvas_size (L : Layout) (s : State) :
    (resizeCanvasToDisplaySize L s).canvasWidth
        = ⌊L.rectWidth * max 1 (if L.devicePixelRatio = 0 then 1 else L.devicePixelRatio)⌋ ∧
      (resizeCanvasToDisplaySize L s).canvasHeight
        = ⌊L.rectHeight * max 1 (if L.devicePixelRatio = 0 then 1 else L.devicePixelRatio)⌋ := by
  unfold resizeCanvasToDisplaySize
  generalize max (1 : ℚ) (if L.devicePixelRatio = 0 then 1 else L.devicePixelRatio) = dpr
  simp only
  split_ifs with h
  · exact ⟨rfl, rfl⟩
  · push_neg at h
    exact h

theorem resize_start (L : Layout) (s : State) :
    (resizeCanvasToDisplaySize L s).start = s.start := by
  unfold resizeCanvasToDisplaySize
  generalize max (1 : ℚ) (if L.devicePixelRatio = 0 then 1 else L.devicePixelRatio) = dpr
  simp only
  split_ifs <;> rfl

theorem resize_pending (L : Layout) (s : State) :
    (resizeCanvasToDisplaySize L s).pending = s.pending := by
  unfold resizeCanvasToDisplaySize
  generalize max (1 : ℚ) (if L.devicePixelRatio = 0 then 1 else L.devicePixelRatio) = dpr
  simp only
  split_ifs <;> rfl

theorem resize_frames (L : Layout) (s : State) :
    (resizeCanvasToDisplaySize L s).frames = s.frames := by
  unfold resizeCanvasToDisplaySize
  generalize max (1 : ℚ) (if L.devicePixelRatio = 0 then 1 else L.devicePixelRatio) = dpr
  simp only
  split_ifs <;> rfl

theorem resize_uMouse (L : Layout) (s : State) :
    (resizeCanvasToDisplaySize L s).uniforms.uMouse = s.uniforms.uMouse := by
  unfold resizeCanvasToDisplaySize
  generalize max (1 : ℚ) (if L.devicePixelRatio = 0 then 1 else L.devicePixelRatio) = dpr
  simp only
  split_ifs <;> rfl

theorem resize_uColor (L : Layout) (s : State) :
    (resizeCanvasToDisplaySize L s).uniforms.uColor = s.uniforms.uColor := by
  unfold resizeCanvasToDisplaySize
  generalize max (1 : ℚ) (if L.devicePixelRatio = 0 then 1 else L.devicePixelRatio) = dpr
  simp only
  split_ifs <;> rfl

/-- The calls of one resize check: none, or the six writes; never a draw, a
time write or a scheduling call. -/
theorem resize_trace (L : Layout) (s : State) :
    ∃ w, (resizeCanvasToDisplaySize L s).trace = s.trace ++ w ∧
      draws w = 0 ∧ timesWritten w = [] ∧ rafCalls w = 0 := by
  unfold resizeCanvasToDisplaySize
  generalize max (1 : ℚ) (if L.devicePixelRatio = 0 then 1 else L.devicePixelRatio) = dpr
  simp only
  split_ifs
  · exact ⟨_, rfl, rfl, rfl, rfl⟩
  · exact ⟨[], by simp, rfl, rfl, rfl⟩

theorem draws_append (l₁ l₂ : List Call) : draws (l₁ ++ l₂) = draws l₁ + draws l₂ := by
  simp [draws]

theorem rafCalls_append (l₁ l₂ : List Call) :
    rafCalls (l₁ ++ l₂) = rafCalls l₁ + rafCalls l₂ := by
  simp [rafCalls]

theorem timesWritten_append (l₁ l₂ : List Call) :
    timesWritten (l₁ ++ l₂) = timesWritten l₁ ++ timesWritten l₂ := by
  simp [timesWritten]

theorem render_trace (now : ℚ) (L : Layout) (s : State) :
    (render now L s).trace = (resizeCanvasToDisplaySize L s).trace ++
      [Call.uniform1f UName.uTime ((now - s.start) * 0.001),
       Call.drawArrays Mode.triangles 0 6, Call.requestAnimationFrame] := by
  simp [render, resize_start]

/-! ## Resize -/

/-- For a device pixel ratio of at least 1 the drawing buffer after a resize
check is `floor(w*r)` by `floor(h*r)`. -/
theorem resize_size_of_ratio_ge_one (L : Layout) (s : State) (hr : 1 ≤ L.devicePixelRatio) :
    (resizeCanvasToDisplaySize L s).canvasWidth = ⌊L.rectWidth * L.devicePixelRatio⌋ ∧
      (resizeCanvasToDisplaySize L s).canvasHeight = ⌊L.rectHeight * L.devicePixelRatio⌋ := by
  have h := resize_canvas_size L s
  have h0 : L.devicePixelRatio ≠ 0 := by
    intro h0
    rw [h0] at hr
    norm_num at hr
  rw [if_neg h0, max_eq_right hr] at h
  exact h

/-- The resolution uniform follows the drawing buffer whenever the check
resizes, or when the two agreed before the check. -/
theorem resize_uResolution_synced (L : Layout) (s : State)
    (h : s.uniforms.uResolution = some (s.canvasWidth, s.canvasHeight) ∨
      (resizeCanvasToDisplaySize L s).canvasWidth ≠ s.canvasWidth ∨
      (resizeCanvasToDisplaySize L s).canvasHeight ≠ s.canvasHeight) :
    (resizeCanvasToDisplaySize L s).uniforms.uResolution
      = some ((resizeCanvasToDisplaySize L s).canvasWidth,
          (resizeCanvasToDisplaySize L s).canvasHeight) := by
  revert h
  unfold resizeCanvasToDisplaySize
  generalize max (1 : ℚ) (if L.devicePixelRatio = 0 then 1 else L.devicePixelRatio) = dpr
  simp only
  split_ifs with hc
  · intro _
    rfl
  · intro h
    rcases h with h | h | h
    · exact h
    · exact absurd rfl h
    · exact absurd rfl h

/-- C1, evaluated on the code: a container of 300 x 150 CSS pixels at device
pixel ratio 1 asks for exactly the size a new canvas already has, so the first
resize check issues no call at all; the drawing buffer is `floor(w*r)` by
`floor(h*r)`, but the resolution uniform has still never been written, and the
first frame is drawn in that state. -/
theorem resize_first_check_leaves_uResolution_unwritten :
    ∃ s, setup (goodHost 0) = Outcome.started s ∧
      (resizeCanvasToDisplaySize ⟨300, 150, 1⟩ s).canvasWidth = ⌊(300 : ℚ) * 1⌋ ∧
      (resizeCanvasToDisplaySize ⟨300, 150, 1⟩ s).canvasHeight = ⌊(150 : ℚ) * 1⌋ ∧
      (resizeCanvasToDisplaySize ⟨300, 150, 1⟩ s).trace = s.trace ∧
      (resizeCanvasToDisplaySize ⟨300, 150, 1⟩ s).uniforms.uResolution = none ∧
      (render 16 ⟨300, 150, 1⟩ s).frames.map (fun u => u.uResolution) = [none] := by
  refine ⟨_, rfl, ?_⟩
  norm_num [resizeCanvasToDisplaySize, render]

/-- C7: a second resize check under the same layout changes nothing: the state,
and with it the list of calls issued, is that after the first check. -/
theorem resize_idempotent (L : Layout) (s : State) :
    resizeCanvasToDisplaySize L (resizeCanvasToDisplaySize L s)
        = resizeCanvasToDisplaySize L s ∧
      (resizeCanvasToDisplaySize L (resizeCanvasToDisplaySize L s)).trace
        = (resizeCanvasToDisplaySize L s).trace := by
  have h := resize_canvas_size L s
  have key : resizeCanvasToDisplaySize L (resizeCanvasToDisplaySize L s)
      = resizeCanvasToDisplaySize L s := by
    generalize resizeCanvasToDisplaySize L s = s1 at h
    unfold resizeCanvasToDisplaySize
    simp only
    rw [if_neg]
    rw [h.1, h.2]
    simp
  exact ⟨key, by rw [key]⟩

/-! ## Pointer -/

/-- C6: with a box of non-zero width and height, the pointer uniform becomes
`((clientX - left)/width, 1 - (clientY - top)/height)`, written with one
`uniform2f`; the top-left corner gives `(0, 1)`, the bottom-right corner
`(1, 0)`; and each coordinate lies in `[0, 1]` exactly when the client point
lies within the box on that axis, so a point outside the box gives a coordinate
outside `[0, 1]`. -/
theorem setMouseFromEvent_normalises (rect : Rect) (e : Point) (s : State)
    (hw : rect.width ≠ 0) (hh : rect.height ≠ 0) :
    (setMouseFromEvent rect e s).uniforms.uMouse
        = ((e.clientX - rect.left) / rect.width, 1 - (e.clientY - rect.top) / rect.height) ∧
      (setMouseFromEvent rect e s).trace = s.trace ++
        [Call.uniform2f UName.uMouse ((e.clientX - rect.left) / rect.width)
          (1 - (e.clientY - rect.top) / rect.height)] ∧
      (setMouseFromEvent rect ⟨rect.left, rect.top⟩ s).uniforms.uMouse = (0, 1) ∧
      (setMouseFromEvent rect ⟨rect.left + rect.width, rect.top + rect.height⟩ s).uniforms.uMouse
        = (1, 0) ∧
      ((0 ≤ (setMouseFromEvent rect e s).uniforms.uMouse.1 ∧
          (setMouseFromEvent rect e s).uniforms.uMouse.1 ≤ 1) ↔
        (min rect.left (rect.left + rect.width) ≤ e.clientX ∧
          e.clientX ≤ max rect.left (rect.left + rect.width))) ∧
      ((0 ≤ (setMouseFromEvent rect e s).uniforms.uMouse.2 ∧
          (setMouseFromEvent rect e s).uniforms.uMouse.2 ≤ 1) ↔
        (min rect.top (rect.top + rect.height) ≤ e.clientY ∧
          e.clientY ≤ max rect.top (rect.top + rect.height))) := by
  refine ⟨rfl, rfl, ?_, ?_, ?_, ?_⟩
  · simp [setMouseFromEvent]
  · simp [setMouseFromEvent, hw, hh]
  · show (0 ≤ (e.clientX - rect.left) / rect.width ∧ (e.clientX - rect.left) / rect.width ≤ 1) ↔ _
    rcases lt_or_gt_of_ne hw with h | h
    · rw [div_nonneg_iff, div_le_one_of_neg h, min_eq_right (by linarith), max_eq_left (by linarith)]
      constructor
      · rintro ⟨h1 | h1, h2⟩ <;> constructor <;> linarith
      · rintro ⟨h1, h2⟩
        exact ⟨Or.inr ⟨by linarith, h.le⟩, by linarith⟩
    · rw [div_nonneg_iff, div_le_one h, min_eq_left (by linarith), max_eq_right (by linarith)]
      constructor
      · rintro ⟨h1 | h1, h2⟩ <;> constructor <;> linarith
      · rintro ⟨h1, h2⟩
        exact ⟨Or.inl ⟨by linarith, h.le⟩, by linarith⟩
  · show (0 ≤ 1 - (e.clientY - rect.top) / rect.height ∧
        1 - (e.clientY - rect.top) / rect.height ≤ 1) ↔ _
    rw [sub_nonneg, sub_le_self_iff]
    rcases lt_or_gt_of_ne hh with h | h
    · rw [div_nonneg_iff, div_le_one_of_neg h, min_eq_right (by linarith),
        max_eq_left (by linarith)]
      constructor
      · rintro ⟨h2, h1 | h1⟩ <;> constructor <;> linarith
      · rintro ⟨h1, h2⟩
        exact ⟨by linarith, Or.inr ⟨by linarith, h.le⟩⟩
    · rw [div_nonneg_iff, div_le_one h, min_eq_left (by linarith), max_eq_right (by linarith)]
      constructor
      · rintro ⟨h2, h1 | h1⟩ <;> constructor <;> linarith
      · rintro ⟨h1, h2⟩
        exact ⟨by linarith, Or.inl ⟨by linarith, h.le⟩⟩

/-- C6 at a concrete box and point: box `(10, 20, 200, 100)`, pointer at
`(260, 70)`, to the right of the box, so the first coordinate is `5/4`. -/
theorem setMouseFromEvent_normalises_witness :
    ((200 : ℚ) ≠ 0 ∧ (100 : ℚ) ≠ 0) ∧
      (setMouseFromEvent ⟨10, 20, 200, 100⟩ ⟨260, 70⟩
        ⟨300, 150, none, none, none, ⟨none, (1, 1, 1), none, (1 / 2, 1 / 2), 1 / 10, 1⟩,
          (1 / 2, 1 / 2), 0, true, false, 1, [], []⟩).uniforms.uMouse
        = ((260 - 10) / 200, 1 - (70 - 20) / 100) :=
  ⟨⟨by norm_num, by norm_num⟩,
    (setMouseFromEvent_normalises ⟨10, 20, 200, 100⟩ ⟨260, 70⟩
      ⟨300, 150, none, none, none, ⟨none, (1, 1, 1), none, (1 / 2, 1 / 2), 1 / 10, 1⟩,
        (1 / 2, 1 / 2), 0, true, false, 1, [], []⟩
      (by norm_num) (by norm_num)).1⟩

/-! ## One tick -/

/-- C8: a tick appends to the calls so far the calls `w` of the resize check
(which hold no draw, no time write and no scheduling call), then the `uTime`
write, then one `drawArrays(TRIANGLES, 0, 6)`, then one
`requestAnimationFrame`; it draws once, schedules once, and a frame event on a
state with a waiting callback is exactly this.  A pointer update made before
the tick is the pointer value of the uniform store at that tick's draw. -/
theorem render_order (now : ℚ) (L : Layout) (s : State) (n : ℕ) (rect : Rect) (e : Point) :
    (∃ w, (resizeCanvasToDisplaySize L s).trace = s.trace ++ w ∧
        draws w = 0 ∧ timesWritten w = [] ∧ rafCalls w = 0 ∧
        (render now L s).trace = s.trace ++ w ++
          [Call.uniform1f UName.uTime ((now - s.start) * 0.001),
           Call.drawArrays Mode.triangles 0 6, Call.requestAnimationFrame]) ∧
      draws (render now L s).trace = draws s.trace + 1 ∧
      rafCalls (render now L s).trace = rafCalls s.trace + 1 ∧
      (render now L s).pending = s.pending + 1 ∧
      step { s with pending := n + 1 } (Event.frame now L)
        = render now L { s with pending := n } ∧
      (∃ u, (render now L (setMouseFromEvent rect e s)).frames = s.frames ++ [u] ∧
        u.uMouse = ((e.clientX - rect.left) / rect.width,
          1 - (e.clientY - rect.top) / rect.height) ∧
        u.uTime = some ((now - s.start) * 0.001)) := by
  obtain ⟨w, hw, hd, ht, hr⟩ := resize_trace L s
  have htr := render_trace now L s
  refine ⟨⟨w, hw, hd, ht, hr, by rw [htr, hw]⟩, ?_, ?_, ?_, rfl, ?_⟩
  · rw [htr, hw, draws_append, draws_append, hd]
    rfl
  · rw [htr, hw, rafCalls_append, rafCalls_append, hr]
    rfl
  · simp [render, resize_pending]
  · refine ⟨{ (resizeCanvasToDisplaySize L (setMouseFromEvent rect e s)).uniforms with
        uTime := some ((now - s.start) * 0.001) }, ?_, ?_, rfl⟩
    · simp [render, resize_frames, resize_start, setMouseFromEvent]
    · simp [resize_uMouse, setMouseFromEvent]

/-! ## Console setters -/

/-- C9: each setter is total, issues one uniform call, stores exactly its
arguments in its own uniform and leaves the other uniforms and the canvas size
as they were; after `setColor(0, 0, 0)` a tick draws as usual, with the colour
uniform `(0, 0, 0)` at the draw. -/
theorem setters_overwrite_only_their_uniform (r g b v now : ℚ) (L : Layout) (s : State) :
    ((setColor r g b s).uniforms.uColor = (r, g, b) ∧
      (setColor r g b s).trace = s.trace ++ [Call.uniform3f UName.uColor r g b] ∧
      (setColor r g b s).uniforms.uTime = s.uniforms.uTime ∧
      (setColor r g b s).uniforms.uResolution = s.uniforms.uResolution ∧
      (setColor r g b s).uniforms.uMouse = s.uniforms.uMouse ∧
      (setColor r g b s).uniforms.uAmplitude = s.uniforms.uAmplitude ∧
      (setColor r g b s).uniforms.uSpeed = s.uniforms.uSpeed ∧
      (setColor r g b s).canvasWidth = s.canvasWidth ∧
      (setColor r g b s).canvasHeight = s.canvasHeight) ∧
    ((setAmplitude v s).uniforms.uAmplitude = v ∧
      (setAmplitude v s).trace = s.trace ++ [Call.uniform1f UName.uAmplitude v] ∧
      (setAmplitude v s).uniforms.uTime = s.uniforms.uTime ∧
      (setAmplitude v s).uniforms.uResolution = s.uniforms.uResolution ∧
      (setAmplitude v s).uniforms.uMouse = s.uniforms.uMouse ∧
      (setAmplitude v s).uniforms.uColor = s.uniforms.uColor ∧
      (setAmplitude v s).uniforms.uSpeed = s.uniforms.uSpeed ∧
      (setAmplitude v s).canvasWidth = s.canvasWidth ∧
      (setAmplitude v s).canvasHeight = s.canvasHeight) ∧
    ((setSpeed v s).uniforms.uSpeed = v ∧
      (setSpeed v s).trace = s.trace ++ [Call.uniform1f UName.uSpeed v] ∧
      (setSpeed v s).uniforms.uTime = s.uniforms.uTime ∧
      (setSpeed v s).uniforms.uResolution = s.uniforms.uResolution ∧
      (setSpeed v s).uniforms.uMouse = s.uniforms.uMouse ∧
      (setSpeed v s).uniforms.uColor = s.uniforms.uColor ∧
      (setSpeed v s).uniforms.uAmplitude = s.uniforms.uAmplitude ∧
      (setSpeed v s).canvasWidth = s.canvasWidth ∧
      (setSpeed v s).canvasHeight = s.canvasHeight) ∧
    draws (render now L (setColor 0 0 0 s)).trace = draws s.trace + 1 ∧
    (∃ u, (render now L (setColor 0 0 0 s)).frames = s.frames ++ [u] ∧
      u.uColor = (0, 0, 0)) := by
  refine ⟨⟨rfl, rfl, rfl, rfl, rfl, rfl, rfl, rfl, rfl⟩, ⟨rfl, rfl, rfl, rfl, rfl, rfl, rfl, rfl, rfl⟩,
    ⟨rfl, rfl, rfl, rfl, rfl, rfl, rfl, rfl, rfl⟩, ?_, ?_⟩
  · obtain ⟨w, hw, hd, -, -⟩ := resize_trace L (setColor 0 0 0 s)
    rw [render_trace, hw, draws_append, draws_append, hd]
    simp [setColor, draws]
  · refine ⟨{ (resizeCanvasToDisplaySize L (setColor 0 0 0 s)).uniforms with
        uTime := some ((now - s.start) * 0.001) }, ?_, ?_⟩
    · simp [render, resize_frames, resize_start, setColor]
    · simp [resize_uColor, setColor]

/-! ## Runs -/

theorem step_pending (s : State) (e : Event) : (step s e).pending = s.pending := by
  cases e with
  | frame now L =>
    cases h : s.pending with
    | zero => simp [step, h]
    | succ n => simp [step, h, render, resize_pending]
  | mousemove rect p => simp [step, MOUSE_REACT, setMouseFromEvent]
  | touchmove rect touches =>
    cases touches <;> simp [step, MOUSE_REACT, onTouchMove, setMouseFromEvent]
  | setColor r g b => rfl
  | setAmplitude v => rfl
  | setSpeed v => rfl
  | dispose ext => cases ext <;> rfl

theorem step_start (s : State) (e : Event) : (step s e).start = s.start := by
  cases e with
  | frame now L =>
    cases h : s.pending with
    | zero => simp [step, h]
    | succ n => simp [step, h, render, resize_start]
  | mousemove rect p => simp [step, MOUSE_REACT, setMouseFromEvent]
  | touchmove rect touches =>
    cases touches <;> simp [step, MOUSE_REACT, onTouchMove, setMouseFromEvent]
  | setColor r g b => rfl
  | setAmplitude v => rfl
  | setSpeed v => rfl
  | dispose ext => cases ext <;> rfl

/-- What one event adds to the calls: a frame adds one time write and one draw
when a callback is waiting; no other event adds either. -/
theorem step_observed (s : State) (e : Event) (hp : 0 < s.pending) :
    draws (step s e).trace = draws s.trace + (frameTimes [e]).length ∧
      timesWritten (step s e).trace
        = timesWritten s.trace ++ (frameTimes [e]).map (fun now => (now - s.start) * 0.001) := by
  cases e with
  | frame now L =>
    obtain ⟨n, hn⟩ := Nat.exists_eq_succ_of_ne_zero hp.ne'
    obtain ⟨w, hw, hd, ht, -⟩ := resize_trace L { s with pending := n }
    have hst : step s (Event.frame now L) = render now L { s with pending := n } := by
      simp [step, hn]
    rw [hst, render_trace, hw]
    constructor
    · rw [draws_append, draws_append, hd]
      rfl
    · rw [timesWritten_append, timesWritten_append, ht]
      simp [timesWritten, frameTimes]
  | mousemove rect p =>
    simp [step, MOUSE_REACT, setMouseFromEvent, draws, timesWritten, frameTimes]
  | touchmove rect touches =>
    cases touches <;>
      simp [step, MOUSE_REACT, onTouchMove, setMouseFromEvent, draws, timesWritten, frameTimes]
  | setColor r g b => simp [step, setColor, draws, timesWritten, frameTimes]
  | setAmplitude v => simp [step, setAmplitude, draws, timesWritten, frameTimes]
  | setSpeed v => simp [step, setSpeed, draws, timesWritten, frameTimes]
  | dispose ext => cases ext <;> simp [step, dispose, draws, timesWritten, frameTimes]

theorem frameTimes_cons (e : Event) (evs : List Event) :
    frameTimes (e :: evs) = frameTimes [e] ++ frameTimes evs := by
  simp [frameTimes, List.filterMap_cons]
  cases e <;> simp

theorem run_pending (s : State) (evs : List Event) : (run s evs).pending = s.pending := by
  induction evs generalizing s with
  | nil => rfl
  | cons e evs ih =>
    show (run (step s e) evs).pending = s.pending
    rw [ih, step_pending]

theorem run_start (s : State) (evs : List Event) : (run s evs).start = s.start := by
  induction evs generalizing s with
  | nil => rfl
  | cons e evs ih =>
    show (run (step s e) evs).start = s.start
    rw [ih, step_start]

theorem run_observed (s : State) (evs : List Event) (hp : 0 < s.pending) :
    draws (run s evs).trace = draws s.trace + (frameTimes evs).length ∧
      timesWritten (run s evs).trace
        = timesWritten s.trace ++ (frameTimes evs).map (fun now => (now - s.start) * 0.001) := by
  induction evs generalizing s with
  | nil => simp [run, frameTimes]
  | cons e evs ih =>
    have h1 := step_observed s e hp
    have h2 := ih (step s e) (by rw [step_pending]; exact hp)
    rw [step_start] at h2
    show draws (run (step s e) evs).trace = _ ∧ timesWritten (run (step s e) evs).trace = _
    rw [frameTimes_cons e evs]
    constructor
    · rw [h2.1, h1.1, List.length_append]
      omega
    · rw [h2.2, h1.2, List.map_append, List.append_assoc]

theorem run_append (s : State) (l₁ l₂ : List Event) :
    run s (l₁ ++ l₂) = run (run s l₁) l₂ := by
  simp [run]

/-- When setup runs to its end, one callback is waiting, `start` is the clock
value read, and so far nothing was drawn and no time was written. -/
theorem setup_started (h : Host) (s : State) (hs : setup h = Outcome.started s) :
    s.pending = 1 ∧ s.start = h.performanceNow ∧ draws s.trace = 0 ∧
      timesWritten s.trace = [] := by
  obtain ⟨g, v, f, l, t, n⟩ := h
  cases g <;> cases v <;> cases f <;> cases l <;> cases t <;>
    simp [setup, compileShader] at hs <;>
    subst hs <;>
    simp [draws, timesWritten, bindAttributes, staticUniforms, listeners, MOUSE_REACT]

/-! ## Shader build failures -/

/-- C2, evaluated on the code.  When both stages fail to compile, both
`compileShader` calls have logged before anything else happens, whatever the
binding does with a `null` shader: at least two diagnostics.  When only the
fragment stage fails and the binding accepts `null`, setup goes on to link,
logs the link error as a second diagnostic, binds the attributes, schedules the
frame loop, and the first tick draws. -/
theorem compile_failure_does_not_stop_setup :
    (∀ (link throws : Bool) (now : ℚ),
        2 ≤ diagnostics (session
          { glAvailable := true, vertexCompiles := false, fragmentCompiles := false,
            linkStatus := link, attachNullThrows := throws, performanceNow := now } [])) ∧
      diagnostics (session (lenientHost true false false) [Event.frame 16 ⟨300, 150, 1⟩]) = 2 ∧
      Call.linkProgram ∈ session (lenientHost true false false) [] ∧
      Call.enableVertexAttribArray Attr.a_position ∈ session (lenientHost true false false) [] ∧
      Call.requestAnimationFrame ∈ session (lenientHost true false false) [] ∧
      draws (session (lenientHost true false false) [Event.frame 16 ⟨300, 150, 1⟩]) = 1 := by
  refine ⟨?_, ?_, ?_, ?_, ?_, ?_⟩
  · intro link throws now
    cases link <;> cases throws <;>
      simp [session, setup, compileShader, run, diagnostics, bindAttributes, staticUniforms,
        listeners, MOUSE_REACT]
  all_goals
    norm_num [session, setup, lenientHost, compileShader, run, step, render, resizeCanvasToDisplaySize,
      diagnostics, draws, bindAttributes, staticUniforms, listeners, MOUSE_REACT]

/-- C3, evaluated on the code.  When both stages compile and linking fails,
setup logs the link error and then carries on exactly as after a good link:
`useProgram`, the attribute bindings, the static uniforms, the listeners and
`requestAnimationFrame(render)`; one callback is waiting and every first tick
draws. -/
theorem link_failure_does_not_stop_setup (throws : Bool) (now t : ℚ) (L : Layout) :
    ∃ s, setup { glAvailable := true, vertexCompiles := true, fragmentCompiles := true,
                 linkStatus := false, attachNullThrows := throws, performanceNow := now }
          = Outcome.started s ∧
      s.trace =
        [Call.createShader Stage.vertex, Call.shaderSource Stage.vertex,
          Call.compileShader Stage.vertex, Call.createShader Stage.fragment,
          Call.shaderSource Stage.fragment, Call.compileShader Stage.fragment,
          Call.createProgram, Call.attachShader (some Stage.vertex),
          Call.attachShader (some Stage.fragment), Call.linkProgram,
          Call.consoleError Diag.programLinkError, Call.useProgram]
          ++ bindAttributes ++ staticUniforms ++ listeners ++ [Call.requestAnimationFrame] ∧
      Call.enableVertexAttribArray Attr.a_position ∈ bindAttributes ∧
      Call.vertexAttribPointer Attr.a_position 2 ∈ bindAttributes ∧
      Call.enableVertexAttribArray Attr.a_uv ∈ bindAttributes ∧
      Call.vertexAttribPointer Attr.a_uv 2 ∈ bindAttributes ∧
      s.pending = 1 ∧
      draws (step s (Event.frame t L)).trace = 1 := by
  have hs : ∃ s, setup ⟨true, true, true, false, throws, now⟩ = Outcome.started s ∧
      s.trace =
        [Call.createShader Stage.vertex, Call.shaderSource Stage.vertex,
          Call.compileShader Stage.vertex, Call.createShader Stage.fragment,
          Call.shaderSource Stage.fragment, Call.compileShader Stage.fragment,
          Call.createProgram, Call.attachShader (some Stage.vertex),
          Call.attachShader (some Stage.fragment), Call.linkProgram,
          Call.consoleError Diag.programLinkError, Call.useProgram]
          ++ bindAttributes ++ staticUniforms ++ listeners ++ [Call.requestAnimationFrame] := by
    cases throws
    · exact ⟨_, rfl, rfl⟩
    · exact ⟨_, rfl, rfl⟩
  obtain ⟨s, hs, hpre⟩ := hs
  obtain ⟨hp, -, hd, -⟩ := setup_started _ s hs
  refine ⟨s, hs, hpre, by decide, by decide, by decide, by decide, hp, ?_⟩
  have := (step_observed s (Event.frame t L) (by omega)).1
  rw [this, hd]
  rfl

/-! ## Sessions -/

theorem started_of_isStarted (h : Host) (hs : (setup h).isStarted = true) :
    ∃ s, setup h = Outcome.started s := by
  cases hset : setup h with
  | unsupported log => simp [hset, Outcome.isStarted] at hs
  | threw log => simp [hset, Outcome.isStarted] at hs
  | started s => exact ⟨s, rfl⟩

theorem session_of_started (h : Host) (s : State) (evs : List Event)
    (hs : setup h = Outcome.started s) :
    session h evs = (run s evs).trace ∧ sessionState h evs = some (run s evs) := by
  simp [session, sessionState, hs]

theorem frameTimes_frameEvents (ticks : List (ℚ × Layout)) :
    frameTimes (frameEvents ticks) = ticks.map Prod.fst := by
  induction ticks with
  | nil => rfl
  | cons t ticks ih =>
    show frameTimes (Event.frame t.1 t.2 :: frameEvents ticks) = _
    rw [frameTimes_cons, ih]
    rfl

theorem run_dispose_attached (s : State) (ext : Bool) :
    (dispose ext s).attached = false ∧ (dispose ext s).contextLost = (ext || s.contextLost) := by
  cases ext <;> simp [dispose]

theorem step_frame_attached (s : State) (now : ℚ) (L : Layout) :
    (step s (Event.frame now L)).attached = s.attached ∧
      (step s (Event.frame now L)).contextLost = s.contextLost := by
  cases h : s.pending with
  | zero => simp [step, h]
  | succ n =>
    have : ∀ s1 : State, (resizeCanvasToDisplaySize L s1).attached = s1.attached ∧
        (resizeCanvasToDisplaySize L s1).contextLost = s1.contextLost := by
      intro s1
      unfold resizeCanvasToDisplaySize
      generalize max (1 : ℚ) (if L.devicePixelRatio = 0 then 1 else L.devicePixelRatio) = dpr
      simp only
      split_ifs <;> exact ⟨rfl, rfl⟩
    simp [step, h, render, this]

theorem run_frames_attached (s : State) (ticks : List (ℚ × Layout)) :
    (run s (frameEvents ticks)).attached = s.attached ∧
      (run s (frameEvents ticks)).contextLost = s.contextLost := by
  induction ticks generalizing s with
  | nil => exact ⟨rfl, rfl⟩
  | cons t ticks ih =>
    show (run (step s (Event.frame t.1 t.2)) (frameEvents ticks)).attached = _ ∧
      (run (step s (Event.frame t.1 t.2)) (frameEvents ticks)).contextLost = _
    rw [(ih _).1, (ih _).2]
    exact step_frame_attached s t.1 t.2

/-! ## Disposal -/

/-- C4 refuted as stated: in a session on a valid host nothing has been drawn
when `dispose()` returns, and the one tick that follows it issues a draw call
and schedules the next tick. -/
theorem dispose_then_frame_still_draws :
    draws (session (goodHost 0) [Event.dispose true]) = 0 ∧
      draws (session (goodHost 0) [Event.dispose true, Event.frame 16 ⟨300, 150, 1⟩]) = 1 ∧
      rafCalls (session (goodHost 0) [Event.dispose true, Event.frame 16 ⟨300, 150, 1⟩])
        = rafCalls (session (goodHost 0) [Event.dispose true]) + 1 := by
  simp [session, setup, goodHost, compileShader, run, step, dispose, render,
    resizeCanvasToDisplaySize, draws, rafCalls, bindAttributes, staticUniforms, listeners,
    MOUSE_REACT]

/-- C4 as amended: there is no disposed state in the frame loop.  After a
completed setup and any events, `dispose()` detaches the canvas and, when the
host offers the extension, asks for the context to be lost; every tick that
follows still runs `render`: `n` ticks issue `n` draw calls, and one callback
is waiting again at the end. -/
theorem frames_continue_after_dispose (h : Host) (before : List Event) (ext : Bool)
    (ticks : List (ℚ × Layout)) (hs : (setup h).isStarted = true) :
    draws (session h (before ++ [Event.dispose ext] ++ frameEvents ticks))
        = draws (session h (before ++ [Event.dispose ext])) + ticks.length ∧
      (sessionState h (before ++ [Event.dispose ext] ++ frameEvents ticks)).map
          (fun s => (s.attached, s.pending)) = some (false, 1) ∧
      (sessionState h (before ++ [Event.dispose ext] ++ frameEvents ticks)).map
          (fun s => s.contextLost)
        = (sessionState h before).map (fun s => ext || s.contextLost) := by
  obtain ⟨s, hset⟩ := started_of_isStarted h hs
  obtain ⟨hp, -, -, -⟩ := setup_started h s hset
  rw [(session_of_started h s _ hset).1, (session_of_started h s _ hset).1,
    (session_of_started h s _ hset).2, (session_of_started h s _ hset).2]
  rw [run_append s (before ++ [Event.dispose ext])]
  have hpend : 0 < (run s (before ++ [Event.dispose ext])).pending := by
    rw [run_pending, hp]
    exact Nat.one_pos
  have hd : run s (before ++ [Event.dispose ext]) = dispose ext (run s before) := by
    rw [run_append]
    rfl
  refine ⟨?_, ?_, ?_⟩
  · rw [(run_observed _ (frameEvents ticks) hpend).1, frameTimes_frameEvents, List.length_map]
  · simp only [Option.map_some', Option.some.injEq, Prod.mk.injEq]
    rw [run_pending, run_pending, hp, (run_frames_attached _ ticks).1, hd]
    exact ⟨(run_dispose_attached _ _).1, rfl⟩
  · simp only [Option.map_some', Option.some.injEq]
    rw [(run_frames_attached _ ticks).2, hd]
    exact (run_dispose_attached _ _).2

/-- C4 as amended, on a valid host: a pointer move, `dispose()`, then two
ticks. -/
theorem frames_continue_after_dispose_witness :
    (setup (goodHost 0)).isStarted = true ∧
      draws (session (goodHost 0)
          ([Event.mousemove ⟨0, 0, 300, 150⟩ ⟨30, 15⟩] ++ [Event.dispose true] ++
            frameEvents [(16, ⟨300, 150, 1⟩), (32, ⟨300, 150, 1⟩)]))
        = draws (session (goodHost 0)
            ([Event.mousemove ⟨0, 0, 300, 150⟩ ⟨30, 15⟩] ++ [Event.dispose true]))
          + [((16 : ℚ), (⟨300, 150, 1⟩ : Layout)), (32, ⟨300, 150, 1⟩)].length :=
  ⟨rfl, (frames_continue_after_dispose (goodHost 0) [Event.mousemove ⟨0, 0, 300, 150⟩ ⟨30, 15⟩]
    true [(16, ⟨300, 150, 1⟩), (32, ⟨300, 150, 1⟩)] rfl).1⟩

/-! ## Elapsed time -/

/-- C5 refuted as stated: setup reads the clock at 1000 ms, the first tick
comes with timestamp 1016 ms, and the first value written to `uTime` is
`0.016`, not `0`. -/
theorem first_frame_time_not_zero :
    (timesWritten (session (goodHost 1000) [Event.frame 1016 ⟨300, 150, 1⟩])).head?
        = some 0.016 ∧
      (timesWritten (session (goodHost 1000) [Event.frame 1016 ⟨300, 150, 1⟩])).head?
        ≠ some 0 := by
  have h : timesWritten (session (goodHost 1000) [Event.frame 1016 ⟨300, 150, 1⟩])
      = [0.016] := by
    simp [session, setup, goodHost, compileShader, run, step, render,
      resizeCanvasToDisplaySize, timesWritten, bindAttributes, staticUniforms, listeners,
      MOUSE_REACT]
    norm_num
  rw [h]
  norm_num

/-- C5 as amended: after a completed setup, the values written to `uTime` are
`(now - start) * 0.001` for the timestamps `now` of the frames, in order, with
`start` the clock value read at setup; when the timestamps are non-decreasing so
are the values; and the first value is that of the first timestamp, which is 0
exactly when that timestamp equals `start`. -/
theorem uTime_nondecreasing (h : Host) (evs : List Event)
    (hs : (setup h).isStarted = true) (hmono : List.Chain' (· ≤ ·) (frameTimes evs)) :
    timesWritten (session h evs)
        = (frameTimes evs).map (fun now => (now - h.performanceNow) * 0.001) ∧
      List.Chain' (· ≤ ·) (timesWritten (session h evs)) ∧
      (timesWritten (session h evs)).head?
        = (frameTimes evs).head?.map (fun now => (now - h.performanceNow) * 0.001) ∧
      ((timesWritten (session h evs)).head? = some 0 ↔
        (frameTimes evs).head? = some h.performanceNow) := by
  obtain ⟨s, hset⟩ := started_of_isStarted h hs
  obtain ⟨hp, hstart, -, ht⟩ := setup_started h s hset
  have key : timesWritten (session h evs)
      = (frameTimes evs).map (fun now => (now - h.performanceNow) * 0.001) := by
    rw [(session_of_started h s evs hset).1, (run_observed s evs (by omega)).2, ht, hstart]
    rfl
  refine ⟨key, ?_, ?_, ?_⟩
  · rw [key, List.chain'_map]
    refine hmono.imp ?_
    intro a b hab
    have : (0 : ℚ) ≤ 0.001 := by norm_num
    exact mul_le_mul_of_nonneg_right (by linarith) this
  · rw [key, List.head?_map]
  · rw [key, List.head?_map]
    cases frameTimes evs with
    | nil => simp
    | cons now rest =>
      simp only [List.head?_cons, Option.map_some', Option.some.injEq]
      constructor
      · intro h0
        have h1 : (0.001 : ℚ) ≠ 0 := by norm_num
        have := (mul_eq_zero.mp h0).resolve_right h1
        linarith
      · intro h0
        rw [h0]
        simp

/-- C5 as amended, on a valid host: clock 1000 ms at setup, frames at 1016 ms
and 1033 ms with a pointer move in between. -/
theorem uTime_nondecreasing_witness :
    ((setup (goodHost 1000)).isStarted = true ∧
        List.Chain' (· ≤ ·) (frameTimes [Event.frame 1016 ⟨300, 150, 1⟩,
          Event.mousemove ⟨0, 0, 300, 150⟩ ⟨30, 15⟩, Event.frame 1033 ⟨300, 150, 1⟩])) ∧
      List.Chain' (· ≤ ·) (timesWritten (session (goodHost 1000)
        [Event.frame 1016 ⟨300, 150, 1⟩, Event.mousemove ⟨0, 0, 300, 150⟩ ⟨30, 15⟩,
          Event.frame 1033 ⟨300, 150, 1⟩])) :=
  ⟨⟨rfl, by
      show List.Chain' (· ≤ ·) ([1016, 1033] : List ℚ)
      norm_num⟩,
    (uTime_nondecreasing (goodHost 1000) _ rfl (by
      show List.Chain' (· ≤ ·) ([1016, 1033] : List ℚ)
      norm_num)).2.1⟩

/-! ## Fragment shader over the reals -/

/-- One output channel before tinting: for `|p| ≤ 1` the argument
`p * cos q * 0.5 + 0.5` lies in `[0, 1]`, where the cosine is between `cos 1`
and `1`. -/
theorem channel_bounds (p q c : ℝ) (hp : |p| ≤ 1) (hc : 0 ≤ c) :
    Real.cos 1 * c ≤ Real.cos (p * Real.cos q * 0.5 + 0.5) * c ∧
      Real.cos (p * Real.cos q * 0.5 + 0.5) * c ≤ c := by
  have hq : |Real.cos q| ≤ 1 := Real.abs_cos_le_one q
  have hpq : |p * Real.cos q| ≤ 1 := by
    rw [abs_mul]
    exact mul_le_one₀ hp (abs_nonneg _) hq
  obtain ⟨h1, h2⟩ := abs_le.mp hpq
  have hy0 : 0 ≤ p * Real.cos q * 0.5 + 0.5 := by linarith
  have hy1 : p * Real.cos q * 0.5 + 0.5 ≤ 1 := by linarith
  have hpi : (1 : ℝ) ≤ Real.pi := by linarith [Real.pi_gt_three]
  have hlow : Real.cos 1 ≤ Real.cos (p * Real.cos q * 0.5 + 0.5) :=
    Real.cos_le_cos_of_nonneg_of_le_pi hy0 hpi hy1
  have hup : Real.cos (p * Real.cos q * 0.5 + 0.5) ≤ 1 := Real.cos_le_one _
  exact ⟨mul_le_mul_of_nonneg_right hlow hc, by nlinarith⟩

/-- The same with a tint component equal to 1. -/
theorem channel_bounds_white (p q c : ℝ) (hp : |p| ≤ 1) (hc : c = 1) :
    Real.cos 1 ≤ Real.cos (p * Real.cos q * 0.5 + 0.5) * c ∧
      Real.cos (p * Real.cos q * 0.5 + 0.5) * c ≤ 1 := by
  have h := channel_bounds p q c hp (by rw [hc]; exact zero_le_one)
  rw [hc] at h ⊢
  simpa using h

theorem abs_cos_mix_06 (z : ℝ) : |Real.cos z * 0.6 + 0.4| ≤ 1 := by
  rw [abs_le]
  constructor <;> linarith [Real.neg_one_le_cos z, Real.cos_le_one z]

theorem abs_cos_mix_05 (z : ℝ) : |Real.cos z * 0.5 + 0.5| ≤ 1 := by
  rw [abs_le]
  constructor <;> linarith [Real.neg_one_le_cos z, Real.cos_le_one z]

/-- The shader has an output exactly when the smaller resolution component is
not 0. -/
theorem fragMain_isSome_iff (f : Fragment ℝ) :
    (fragMain Real.cos Real.sin f).isSome = true ↔
      min f.uResolution.1 f.uResolution.2 ≠ 0 := by
  by_cases h : min f.uResolution.1 f.uResolution.2 = 0
  · simp [fragMain, h]
  · simp [fragMain, h]

/-- C10 refuted as stated: at the resolution `(0, 0)`, which is what a frame is
drawn with while the resolution uniform has never been written, `mr` is 0, the
shader divides by it, and there is no output value to satisfy the bounds. -/
theorem fragMain_undefined_at_zero_resolution :
    fragMain Real.cos Real.sin
        ⟨0.016, (1, 1, 1), (0, 0), (0.5, 0.5), 0.1, 1, (0.5, 0.5)⟩ = none ∧
      ¬ ∃ c, fragMain Real.cos Real.sin
          ⟨0.016, (1, 1, 1), (0, 0), (0.5, 0.5), 0.1, 1, (0.5, 0.5)⟩ = some c ∧
        Real.cos 1 * 1 ≤ c.1 ∧ c.1 ≤ 1 := by
  have h : fragMain Real.cos Real.sin
      ⟨0.016, (1, 1, 1), (0, 0), (0.5, 0.5), 0.1, 1, (0.5, 0.5)⟩ = none := by
    simp [fragMain]
  refine ⟨h, ?_⟩
  rintro ⟨c, hc, -⟩
  rw [h] at hc
  exact Option.noConfusion hc

/-- C10 as amended: over the reals, for a resolution whose smaller component is
not 0 and a tint with every component in `[0, 1]`, `main` produces a colour;
each of its colour channels lies between `cos 1` times the tint component and
the tint component, and alpha is 1; with the configured white tint each channel
lies in `[cos 1, 1]`, and `cos 1` is positive. -/
theorem fragMain_channel_bounds (f : Fragment ℝ)
    (hres : min f.uResolution.1 f.uResolution.2 ≠ 0)
    (hr : 0 ≤ f.uColor.1 ∧ f.uColor.1 ≤ 1) (hg : 0 ≤ f.uColor.2.1 ∧ f.uColor.2.1 ≤ 1)
    (hb : 0 ≤ f.uColor.2.2 ∧ f.uColor.2.2 ≤ 1) :
    (∃ c, fragMain Real.cos Real.sin f = some c ∧
      (Real.cos 1 * f.uColor.1 ≤ c.1 ∧ c.1 ≤ f.uColor.1) ∧
      (Real.cos 1 * f.uColor.2.1 ≤ c.2.1 ∧ c.2.1 ≤ f.uColor.2.1) ∧
      (Real.cos 1 * f.uColor.2.2 ≤ c.2.2.1 ∧ c.2.2.1 ≤ f.uColor.2.2) ∧
      c.2.2.2 = 1) ∧
    (∃ w, fragMain Real.cos Real.sin
        { f with uColor := ((COLOR.1 : ℝ), (COLOR.2.1 : ℝ), (COLOR.2.2 : ℝ)) } = some w ∧
      (Real.cos 1 ≤ w.1 ∧ w.1 ≤ 1) ∧
      (Real.cos 1 ≤ w.2.1 ∧ w.2.1 ≤ 1) ∧
      (Real.cos 1 ≤ w.2.2.1 ∧ w.2.2.1 ≤ 1) ∧
      w.2.2.2 = 1) ∧
    (0 : ℝ) < Real.cos 1 := by
  refine ⟨?_, ?_, Real.cos_one_pos⟩
  · refine ⟨_, by simp only [fragMain]; rw [if_neg hres], ?_, ?_, ?_, ?_⟩
    · exact channel_bounds _ _ _ (abs_cos_mix_06 _) hr.1
    · exact channel_bounds _ _ _ (abs_cos_mix_05 _) hg.1
    · exact channel_bounds _ _ _ (abs_cos_mix_06 _) hb.1
    · show ((1.0 : ℝ)) = 1
      norm_num
  · have c1 : ((COLOR.1 : ℚ) : ℝ) = 1 := by simp [COLOR]
    have c2 : ((COLOR.2.1 : ℚ) : ℝ) = 1 := by simp [COLOR]
    have c3 : ((COLOR.2.2 : ℚ) : ℝ) = 1 := by simp [COLOR]
    refine ⟨_, by simp only [fragMain]; rw [if_neg hres], ?_, ?_, ?_, ?_⟩
    · exact channel_bounds_white _ _ _ (abs_cos_mix_06 _) c1
    · exact channel_bounds_white _ _ _ (abs_cos_mix_05 _) c2
    · exact channel_bounds_white _ _ _ (abs_cos_mix_06 _) c3
    · show ((1.0 : ℝ)) = 1
      norm_num

/-- C10 as amended, at the configured uniforms: white tint, a 300 x 150
buffer, pointer at the centre, the fragment at the lower-left corner at time
0. -/
theorem fragMain_channel_bounds_witness :
    (min (300 : ℝ) 150 ≠ 0 ∧ (0 : ℝ) ≤ 1 ∧ (1 : ℝ) ≤ 1) ∧
      ∃ c, fragMain Real.cos Real.sin
          ⟨0, (1, 1, 1), (300, 150), (0.5, 0.5), 0.1, 1, (0, 0)⟩ = some c ∧
        (Real.cos 1 * 1 ≤ c.1 ∧ c.1 ≤ 1) ∧
        (Real.cos 1 * 1 ≤ c.2.1 ∧ c.2.1 ≤ 1) ∧
        (Real.cos 1 * 1 ≤ c.2.2.1 ∧ c.2.2.1 ≤ 1) ∧
        c.2.2.2 = 1 :=
  ⟨⟨by norm_num, zero_le_one, le_refl 1⟩,
    (fragMain_channel_bounds ⟨0, (1, 1, 1), (300, 150), (0.5, 0.5), 0.1, 1, (0, 0)⟩
      (by norm_num) ⟨zero_le_one, le_refl 1⟩ ⟨zero_le_one, le_refl 1⟩
      ⟨zero_le_one, le_refl 1⟩).1⟩

end Iridescence

